import Mathlib

/-!
# Smart-Cart notification backend (`fiber-backend/main.go`)

A shallow embedding of the single Go source file of the service and the
properties of its `/notifications` route.

Modelling conventions

* `time.Time` is an instant; it is only ever copied and compared, so it is a
  natural number (nanoseconds since the epoch).
* `uint` identities are natural numbers; the program performs no arithmetic on
  them, only the ordering of the SQL `ORDER BY`.
* `float64` columns of `Product` are carried as their IEEE-754 bit pattern and
  `datatypes.JSON` columns as their raw text; neither is ever read back.
* A Go slice is either `nil` or a (possibly empty) backing list, because
  `encoding/json` distinguishes the two.
* The response body is a JSON value tree, not its byte serialisation.
-/

namespace SmartCart

/-! ## Models (main.go lines 18-55) -/

/-- An instant of `time.Time`. -/
abbrev Time := Nat

/-- The persisted `Product` struct (main.go lines 20-39). -/
structure Product where
  ID : Nat
  Title : String
  Description : String
  Category : String
  Price : Nat
  DiscountPercentage : Nat
  Rating : Nat
  Stock : Int
  Tags : String
  Brand : String
  SKU : String
  Weight : Nat
  Dimensions : String
  AvailabilityStatus : String
  MinimumOrderQuantity : Int
  Meta : String
  Images : String
  Thumbnail : String
  deriving DecidableEq, Repr

/-- The scan target `ProductNotification` (main.go lines 42-48). -/
structure ProductNotification where
  ID : Nat
  Title : String
  Category : String
  Description : String
  CreatedAt : Time
  deriving DecidableEq, Repr

/-- The output record `NotificationResponse` (main.go lines 50-55); the Go
field `Type` is spelled `Type_` because `Type` is reserved. -/
structure NotificationResponse where
  Type_ : String
  Title : String
  Message : String
  Timestamp : Time
  deriving DecidableEq, Repr

/-! ## Go slices -/

/-- A Go slice value: `none` is the `nil` slice, `some l` a non-nil slice with
elements `l`. -/
abbrev GoSlice (α : Type) := Option (List α)

/-- The elements of a slice, as seen by `range` and `len`. -/
def GoSlice.elems {α : Type} : GoSlice α → List α
  | none => []
  | some l => l

/-- Go `append(s, x)`: appending to `nil` allocates a one-element slice. -/
def GoSlice.append {α : Type} (s : GoSlice α) (x : α) : GoSlice α :=
  some (s.elems ++ [x])

/-- Go `len(s)`. -/
def GoSlice.len {α : Type} (s : GoSlice α) : Nat := s.elems.length

/-! ## The derivation loop (main.go lines 112-119) -/

/-- The struct literal built in the loop body (main.go lines 113-118). -/
def toNotification (p : ProductNotification) : NotificationResponse :=
  { Type_ := "product"
    Title := "New Product: " ++ p.Title
    Message := p.Description ++ " (" ++ p.Category ++ ")"
    Timestamp := p.CreatedAt }

/-- The loop `for _, p := range prodNotifs` appending to the slice `acc`. -/
def deriveLoop (acc : GoSlice NotificationResponse) (prodNotifs : List ProductNotification) :
    GoSlice NotificationResponse :=
  prodNotifs.foldl (fun ns p => ns.append (toNotification p)) acc

/-- The derivation as the handler runs it: `notifications` starts as the nil
slice declared on main.go line 94. -/
def deriveNotifications (prodNotifs : List ProductNotification) : GoSlice NotificationResponse :=
  deriveLoop none prodNotifs

/-! ## JSON responses

`c.JSON` hands the value to `encoding/json`: a nil slice is encoded as `null`, a
non-nil slice as an array, a struct as an object keyed by its `json` tags, and a
`time.Time` as a string in RFC 3339 form (kept abstract as `Json.time`). -/

/-- A JSON value. -/
inductive Json where
  | null : Json
  | str : String → Json
  | time : Time → Json
  | arr : List Json → Json
  | obj : List (String × Json) → Json

/-- An HTTP response: status code and JSON body. -/
structure Response where
  status : Nat
  body : Json

/-- Encoding of one `NotificationResponse` under its `json` tags (lines 51-54). -/
def marshalNotification (n : NotificationResponse) : Json :=
  Json.obj [("type", Json.str n.Type_), ("title", Json.str n.Title),
    ("message", Json.str n.Message), ("timestamp", Json.time n.Timestamp)]

/-- Encoding of a `[]NotificationResponse` slice: `null` when the slice is nil. -/
def marshalNotifications : GoSlice NotificationResponse → Json
  | none => Json.null
  | some l => Json.arr (l.map marshalNotification)

/-! ## The SQL text (main.go lines 96-106) -/

/-- The raw string literal assigned to `rawQuery`, whitespace included. -/
def rawQuery : String :=
  "\n\t\t\tSELECT \n\t\t\t\tid, \n\t\t\t\ttitle, \n\t\t\t\tcategory, \n\t\t\t\tdescription, \n\t\t\t\tCURRENT_TIMESTAMP AS created_at\n\t\t\tFROM products \n\t\t\tORDER BY id DESC \n\t\t\tLIMIT 5\n\t\t"

/-- SQL whitespace. -/
def isSpace (c : Char) : Bool := c == ' ' || c == '\n' || c == '\t' || c == '\r'

/-- Whitespace-separated words of a character list; `cur` is the word being
read, in reverse. -/
def tokensAux : List Char → List Char → List (List Char)
  | cur, [] => if cur.isEmpty then [] else [cur.reverse]
  | cur, c :: cs =>
    if isSpace c then
      (if cur.isEmpty then tokensAux [] cs else cur.reverse :: tokensAux [] cs)
    else tokensAux (c :: cur) cs

/-- The words of a query text. -/
def tokens (q : String) : List String := (tokensAux [] q.data).map String.mk

/-- The word following the first occurrence of the keyword `kw`. -/
def tokenAfter (kw : String) : List String → Option String
  | [] => none
  | a :: rest => if a = kw then rest.head? else tokenAfter kw rest

/-- A decimal literal. -/
def parseNat (s : String) : Option Nat :=
  if s.data ≠ [] ∧ s.data.all Char.isDigit then
    some (s.data.foldl (fun n c => 10 * n + (c.toNat - '0'.toNat)) 0)
  else none

/-- The relation named in the `FROM` clause. -/
def queryTable (q : String) : Option String := tokenAfter "FROM" (tokens q)

/-- The row count of the `LIMIT` clause. -/
def queryLimit (q : String) : Option Nat := (tokenAfter "LIMIT" (tokens q)).bind parseNat

/-! ## Storage and the selection query -/

/-- A database: its relations by name, each a list of rows in storage order. -/
abbrev Database := List (String × List Product)

/-- The outcome of `db.Raw(q).Scan(&prodNotifs)`: the contents of `prodNotifs`
afterwards and the `Error` field (`none` is Go `nil`). -/
structure ScanResult where
  rows : List ProductNotification
  err : Option String

/-- The order `ORDER BY id DESC` puts `a` before `b` (line 104). -/
def idDesc (a b : Product) : Prop := b.ID ≤ a.ID

instance idDescDecidable : DecidableRel idDesc :=
  fun a b => inferInstanceAs (Decidable (b.ID ≤ a.ID))

instance idDescTotal : IsTotal Product idDesc := ⟨fun a b => Nat.le_total b.ID a.ID⟩

instance idDescTrans : IsTrans Product idDesc :=
  ⟨fun _ _ _ hab hbc => Nat.le_trans hbc hab⟩

/-- Rows sorted by `ORDER BY id DESC`. -/
def orderByIdDesc (rows : List Product) : List Product := rows.insertionSort idDesc

/-- The select list of lines 98-102 evaluated on one row: four columns of the
row and `CURRENT_TIMESTAMP`, the statement time, as `created_at`; `Scan` stores
each column in the field of the same name. -/
def project (now : Time) (p : Product) : ProductNotification :=
  { ID := p.ID, Title := p.Title, Category := p.Category, Description := p.Description,
    CreatedAt := now }

/-- Execution of a query text of the shape of `rawQuery` at statement time `now`:
the rows of the `FROM` relation, ordered by identity descending, cut at the
`LIMIT`, projected. A relation that does not exist is an error. -/
def execSelect (q : String) (db : Database) (now : Time) : ScanResult :=
  match queryTable q, queryLimit q with
  | some t, some k =>
    match db.lookup t with
    | some rows => { rows := ((orderByIdDesc rows).take k).map (project now), err := none }
    | none => { rows := [], err := some ("relation \"" ++ t ++ "\" does not exist") }
  | _, _ => { rows := [], err := some "syntax error" }

/-- The call `db.Raw(rawQuery).Scan(&prodNotifs)` of line 108. -/
def runSelection (db : Database) (now : Time) : ScanResult := execSelect rawQuery db now

/-! ## The `/notifications` handler (main.go lines 92-122) -/

/-- The handler body after the scan: the error branch of lines 108-110, else the
loop and `c.JSON(notifications)` with the default status 200. -/
def notificationsHandler (scan : ScanResult) : Response :=
  match scan.err with
  | some _ =>
    { status := 500, body := Json.obj [("error", Json.str "Failed to load product notifications")] }
  | none => { status := 200, body := marshalNotifications (deriveNotifications scan.rows) }

/-- A request to `/notifications` served at time `now` against `db`. -/
def getNotifications (db : Database) (now : Time) : Response :=
  notificationsHandler (runSelection db now)

/-! ## Configuration (main.go lines 64-68 and 124-125) -/

/-- The process environment at the time of the `os.Getenv` calls. -/
abbrev Env := List (String × String)

/-- Go `os.Getenv`: the value of the variable, or the empty string when unset. -/
def Getenv (env : Env) (key : String) : String := (env.lookup key).getD ""

/-- The variable `port` after lines 65-68. -/
def listenPort (env : Env) : String :=
  let port := Getenv env "PORT"
  if port = "" then "3000" else port

/-- The address passed to `app.Listen` (line 125). -/
def listenAddr (env : Env) : String := ":" ++ listenPort env

/-! ## Table naming and start-up (main.go lines 71-81)

`schema.NamingStrategy` and `AutoMigrate` are gorm library code; they are
modelled here for plain CamelCase struct names. -/

/-- The fields of `schema.NamingStrategy` that line 72-74 can set. -/
structure NamingStrategy where
  SingularTable : Bool

/-- CamelCase to snake_case; `prevLower` tells whether the previous character
was a lower-case letter. -/
def toDBNameAux : Bool → List Char → List Char
  | _, [] => []
  | prevLower, c :: cs =>
    if c.isUpper then
      (if prevLower then '_' :: c.toLower :: toDBNameAux false cs
       else c.toLower :: toDBNameAux false cs)
    else c :: toDBNameAux c.isLower cs

/-- The column-style name of a struct name. -/
def toDBName (name : String) : String := String.mk (toDBNameAux false name.data)

/-- The regular English plural. -/
def plural (s : String) : String := s ++ "s"

/-- The table name of a struct: singular when `SingularTable` is set, plural
otherwise. -/
def NamingStrategy.TableName (ns : NamingStrategy) (structName : String) : String :=
  if ns.SingularTable then toDBName structName else plural (toDBName structName)

/-- The strategy configured on lines 72-74. -/
def configuredNaming : NamingStrategy := { SingularTable := true }

/-- The table that `db.AutoMigrate(&Product{})` creates or verifies. -/
def migratedTable : String := configuredNaming.TableName "Product"

/-- The effect of `AutoMigrate` on the relations: the table is created empty
when it does not exist. -/
def autoMigrate (db : Database) : Database :=
  match db.lookup migratedTable with
  | some _ => db
  | none => db ++ [(migratedTable, [])]

/-! ## Sample data -/

/-- A product row with the given identity and texts and blank remaining columns. -/
def sampleProduct (id : Nat) (title description category : String) : Product :=
  { ID := id, Title := title, Description := description, Category := category,
    Price := 0, DiscountPercentage := 0, Rating := 0, Stock := 0, Tags := "[]", Brand := "",
    SKU := "", Weight := 0, Dimensions := "null", AvailabilityStatus := "",
    MinimumOrderQuantity := 0, Meta := "null", Images := "[]", Thumbnail := "" }

/-- Seven rows with identities 1 to 7 in a scrambled storage order. -/
def sevenRows : List Product :=
  [sampleProduct 3 "c" "" "", sampleProduct 7 "g" "" "", sampleProduct 1 "a" "" "",
   sampleProduct 5 "e" "" "", sampleProduct 2 "b" "" "", sampleProduct 6 "f" "" "",
   sampleProduct 4 "d" "" ""]

/-! ## Helper lemmas on the loop -/

theorem deriveLoop_elems (acc : GoSlice NotificationResponse) (ps : List ProductNotification) :
    (deriveLoop acc ps).elems = acc.elems ++ ps.map toNotification := by
  induction ps generalizing acc with
  | nil => simp [deriveLoop]
  | cons p ps ih =>
    have h := ih (acc.append (toNotification p))
    simp only [deriveLoop, List.foldl_cons] at h ⊢
    rw [h]
    simp [GoSlice.append, GoSlice.elems]

theorem deriveNotifications_elems (ps : List ProductNotification) :
    (deriveNotifications ps).elems = ps.map toNotification := by
  rw [deriveNotifications, deriveLoop_elems]
  simp [GoSlice.elems]

theorem deriveLoop_some (l : List NotificationResponse) (ps : List ProductNotification) :
    deriveLoop (some l) ps = some (l ++ ps.map toNotification) := by
  induction ps generalizing l with
  | nil => simp [deriveLoop]
  | cons p ps ih =>
    have h := ih (l ++ [toNotification p])
    have step : deriveLoop (some l) (p :: ps) = deriveLoop (some (l ++ [toNotification p])) ps := rfl
    rw [step, h]
    simp

theorem deriveNotifications_nil : deriveNotifications [] = none := rfl

theorem deriveNotifications_cons (p : ProductNotification) (ps : List ProductNotification) :
    deriveNotifications (p :: ps) = some ((p :: ps).map toNotification) := by
  have h := deriveLoop_some [toNotification p] ps
  simpa [deriveNotifications, deriveLoop, GoSlice.append, GoSlice.elems] using h


/-! ## Helper lemmas on the query -/

theorem rawQuery_tokens :
    tokens rawQuery = ["SELECT", "id,", "title,", "category,", "description,",
      "CURRENT_TIMESTAMP", "AS", "created_at", "FROM", "products", "ORDER", "BY", "id", "DESC",
      "LIMIT", "5"] := by decide

theorem rawQuery_table : queryTable rawQuery = some "products" := by decide

theorem rawQuery_limit : queryLimit rawQuery = some 5 := by decide

theorem runSelection_of_table (db : Database) (now : Time) (rows : List Product)
    (htab : db.lookup "products" = some rows) :
    runSelection db now =
      { rows := ((orderByIdDesc rows).take 5).map (project now), err := none } := by
  simp only [runSelection, execSelect, rawQuery_table, rawQuery_limit, htab]

theorem runSelection_of_missing (db : Database) (now : Time)
    (htab : db.lookup "products" = none) :
    (runSelection db now).rows = [] ∧ (runSelection db now).err ≠ none := by
  simp [runSelection, execSelect, rawQuery_table, rawQuery_limit, htab]

theorem runSelection_ok_rows (db : Database) (now : Time)
    (hok : (runSelection db now).err = none) :
    ∃ rows, (runSelection db now).rows = ((orderByIdDesc rows).take 5).map (project now) := by
  cases htab : db.lookup "products" with
  | none => exact absurd hok (runSelection_of_missing db now htab).2
  | some rows => exact ⟨rows, by rw [runSelection_of_table db now rows htab]⟩

theorem orderByIdDesc_sorted (rows : List Product) : (orderByIdDesc rows).Pairwise idDesc :=
  List.sorted_insertionSort idDesc rows

theorem orderByIdDesc_perm (rows : List Product) : List.Perm (orderByIdDesc rows) rows :=
  List.perm_insertionSort idDesc rows

theorem orderByIdDesc_strict (rows : List Product) (hid : (rows.map Product.ID).Nodup) :
    (orderByIdDesc rows).Pairwise (fun a b => b.ID < a.ID) := by
  have hnd : ((orderByIdDesc rows).map Product.ID).Nodup :=
    ((orderByIdDesc_perm rows).map Product.ID).nodup_iff.mpr hid
  have hne : (orderByIdDesc rows).Pairwise (fun a b => a.ID ≠ b.ID) :=
    List.pairwise_map.mp hnd
  exact ((orderByIdDesc_sorted rows).and hne).imp
    (fun h => Nat.lt_of_le_of_ne h.1 (fun e => h.2 e.symm))

theorem orderByIdDesc_ids (rows : List Product) (ids : List Nat)
    (hperm : List.Perm (rows.map Product.ID) ids) (hsorted : ids.Pairwise (fun a b => b ≤ a)) :
    (orderByIdDesc rows).map Product.ID = ids := by
  have h1 : List.Perm ((orderByIdDesc rows).map Product.ID) ids :=
    ((orderByIdDesc_perm rows).map Product.ID).trans hperm
  have h2 : ((orderByIdDesc rows).map Product.ID).Pairwise (fun a b => b ≤ a) :=
    List.pairwise_map.mpr (orderByIdDesc_sorted rows)
  haveI : IsAntisymm Nat (fun a b => b ≤ a) := ⟨fun _ _ h1 h2 => Nat.le_antisymm h2 h1⟩
  exact List.eq_of_perm_of_sorted h1 h2 hsorted

theorem project_ID (now : Time) : ProductNotification.ID ∘ project now = Product.ID := rfl

/-! ## Theorems on the derivation loop -/

/-- C1: for every input sequence and every index `i` below its length, the
notification at position `i` of the loop output exists and has type "product",
title "New Product: " followed by the input title, message the input description
followed by " (", the input category and ")", and the input timestamp; the output
is in input order. -/
theorem derive_pointwise (input : List ProductNotification) (i : Nat) (hi : i < input.length) :
    ∃ n, (deriveNotifications input).elems[i]? = some n ∧
      n.Type_ = "product" ∧
      n.Title = "New Product: " ++ (input.get ⟨i, hi⟩).Title ∧
      n.Message = (input.get ⟨i, hi⟩).Description ++ " (" ++ (input.get ⟨i, hi⟩).Category ++ ")" ∧
      n.Timestamp = (input.get ⟨i, hi⟩).CreatedAt := by
  refine ⟨toNotification (input.get ⟨i, hi⟩), ?_, rfl, rfl, rfl, rfl⟩
  rw [deriveNotifications_elems]
  simp [List.getElem?_map, List.getElem?_eq_getElem hi]

/-- Witness for C1: the second of two records. -/
theorem derive_pointwise_witness :
    (1 : Nat) < [ProductNotification.mk 2 "B" "c2" "d2" 9, ProductNotification.mk 1 "A" "c1" "d1" 8].length ∧
    ∃ n, (deriveNotifications
        [ProductNotification.mk 2 "B" "c2" "d2" 9, ProductNotification.mk 1 "A" "c1" "d1" 8]).elems[1]?
          = some n ∧
      n.Type_ = "product" ∧ n.Title = "New Product: " ++ "A" ∧
      n.Message = "d1" ++ " (" ++ "c1" ++ ")" ∧ n.Timestamp = 8 :=
  ⟨by decide,
   derive_pointwise
     [ProductNotification.mk 2 "B" "c2" "d2" 9, ProductNotification.mk 1 "A" "c1" "d1" 8] 1 (by decide)⟩

/-- C5: the length of the derived notification sequence equals the length of the
input sequence, and the empty input yields an output of length zero. -/
theorem derive_length (input : List ProductNotification) :
    (deriveNotifications input).len = input.length ∧ (deriveNotifications []).len = 0 := by
  refine ⟨?_, rfl⟩
  simp [GoSlice.len, deriveNotifications_elems]

/-- C10: two inputs of equal length that agree position by position on Title,
Description, Category and CreatedAt (and may differ in ID) yield identical
notification sequences. -/
theorem derive_ignores_id (xs ys : List ProductNotification)
    (h : List.Forall₂ (fun a b : ProductNotification =>
      a.Title = b.Title ∧ a.Description = b.Description ∧ a.Category = b.Category ∧
        a.CreatedAt = b.CreatedAt) xs ys) :
    deriveNotifications xs = deriveNotifications ys := by
  have hmap : xs.map toNotification = ys.map toNotification := by
    induction h with
    | nil => rfl
    | cons hab _ ih =>
      obtain ⟨h1, h2, h3, h4⟩ := hab
      simp [toNotification, h1, h2, h3, h4, ih]
  cases xs with
  | nil =>
    cases ys with
    | nil => rfl
    | cons y ys => cases h
  | cons x xs =>
    cases ys with
    | nil => cases h
    | cons y ys => rw [deriveNotifications_cons, deriveNotifications_cons, hmap]

/-- Witness for C10: same content under different identities. -/
theorem derive_ignores_id_witness :
    deriveNotifications [ProductNotification.mk 1 "A" "c" "d" 5]
      = deriveNotifications [ProductNotification.mk 77 "A" "c" "d" 5] :=
  derive_ignores_id [ProductNotification.mk 1 "A" "c" "d" 5] [ProductNotification.mk 77 "A" "c" "d" 5]
    (List.Forall₂.cons ⟨rfl, rfl, rfl, rfl⟩ List.Forall₂.nil)

/-! ## Theorems on the selection query -/

/-- C2: when the relation read by the selection query holds `n` rows with pairwise
distinct identities, the query succeeds and returns exactly `min 5 n` records,
each the projection of a stored row, every row left out has a smaller identity
than every returned record, and the records are in strictly descending identity
order; for identities 1 to 7 the result is 7,6,5,4,3 and for identities 1 and 2
it is 2,1. -/
theorem selection_top_five (db : Database) (now : Time) (rows : List Product)
    (htab : db.lookup "products" = some rows) (hid : (rows.map Product.ID).Nodup) :
    (runSelection db now).err = none ∧
    (runSelection db now).rows.length = min 5 rows.length ∧
    (∀ q ∈ (runSelection db now).rows, ∃ p ∈ rows, q = project now p) ∧
    (∀ p ∈ rows, project now p ∈ (runSelection db now).rows ∨
      ∀ q ∈ (runSelection db now).rows, p.ID < q.ID) ∧
    (runSelection db now).rows.Pairwise (fun a b => b.ID < a.ID) ∧
    (List.Perm (rows.map Product.ID) [1, 2, 3, 4, 5, 6, 7] →
      (runSelection db now).rows.map ProductNotification.ID = [7, 6, 5, 4, 3]) ∧
    (List.Perm (rows.map Product.ID) [1, 2] →
      (runSelection db now).rows.map ProductNotification.ID = [2, 1]) := by
  rw [runSelection_of_table db now rows htab]
  have hstrict := orderByIdDesc_strict rows hid
  have hperm := orderByIdDesc_perm rows
  refine ⟨rfl, ?_, ?_, ?_, ?_, ?_, ?_⟩
  · simp [List.length_take, hperm.length_eq]
  · intro q hq
    obtain ⟨p, hp, rfl⟩ := List.mem_map.mp hq
    exact ⟨p, hperm.mem_iff.mp (List.mem_of_mem_take hp), rfl⟩
  · intro p hp
    have hmem : p ∈ (orderByIdDesc rows).take 5 ++ (orderByIdDesc rows).drop 5 := by
      rw [List.take_append_drop]; exact hperm.mem_iff.mpr hp
    rcases List.mem_append.mp hmem with h | h
    · exact Or.inl (List.mem_map_of_mem _ h)
    · right
      intro q hq
      obtain ⟨s, hs, rfl⟩ := List.mem_map.mp hq
      have hsplit : ((orderByIdDesc rows).take 5 ++ (orderByIdDesc rows).drop 5).Pairwise
          (fun a b => b.ID < a.ID) := by
        rw [List.take_append_drop]; exact hstrict
      exact (List.pairwise_append.mp hsplit).2.2 s hs p h
  · exact List.pairwise_map.mpr (hstrict.sublist (List.take_sublist 5 _))
  · intro h7
    have hids := orderByIdDesc_ids rows [7, 6, 5, 4, 3, 2, 1]
      (h7.trans (by decide)) (by decide)
    rw [List.map_map, project_ID, List.map_take, hids]
    rfl
  · intro h2
    have hids := orderByIdDesc_ids rows [2, 1] (h2.trans (by decide)) (by decide)
    rw [List.map_map, project_ID, List.map_take, hids]
    rfl

/-- Witness for C2: seven rows stored in scrambled order. -/
theorem selection_top_five_witness :
    List.lookup "products" [("products", sevenRows)] = some sevenRows ∧
    (sevenRows.map Product.ID).Nodup ∧
    (runSelection [("products", sevenRows)] 0).rows.map ProductNotification.ID
      = [7, 6, 5, 4, 3] :=
  ⟨by decide, by decide,
   (selection_top_five [("products", sevenRows)] 0 sevenRows (by decide) (by decide)).2.2.2.2.2.1
     (by decide)⟩

/-! ## Theorems on the handler -/

/-- C3: with the queried relation present and empty, the route answers status 200
with the body `null`, which is not the empty JSON array. -/
theorem empty_table_body_null (now : Time) :
    getNotifications [("products", [])] now = { status := 200, body := Json.null } ∧
    (getNotifications [("products", [])] now).body ≠ Json.arr [] := by
  have h : getNotifications [("products", [])] now = { status := 200, body := Json.null } := by
    have hsel := runSelection_of_table [("products", [])] now [] (by decide)
    simp only [getNotifications, hsel, notificationsHandler]
    rfl
  refine ⟨h, ?_⟩
  rw [h]
  intro hc
  cases hc

/-- C4: when the scan reports an error the response is status 500 with the object
holding only the key "error" and the fixed message, whatever rows were scanned;
when the scan reports no error and scanned at least one row the response is
status 200 with the array of the derived notifications, one object per row in
order; but when the scan reports no error and scanned no row the response is
status 200 with the body `null`, which is not a list. -/
theorem handler_branches_and_empty_scan :
    (∀ (rows : List ProductNotification) (e : String),
      notificationsHandler { rows := rows, err := some e } =
        { status := 500,
          body := Json.obj [("error", Json.str "Failed to load product notifications")] }) ∧
    (∀ (p : ProductNotification) (ps : List ProductNotification),
      notificationsHandler { rows := p :: ps, err := none } =
        { status := 200,
          body := Json.arr ((p :: ps).map (fun q =>
            Json.obj [("type", Json.str "product"),
              ("title", Json.str ("New Product: " ++ q.Title)),
              ("message", Json.str (q.Description ++ " (" ++ q.Category ++ ")")),
              ("timestamp", Json.time q.CreatedAt)])) }) ∧
    notificationsHandler { rows := [], err := none } = { status := 200, body := Json.null } ∧
    (∀ l : List Json, (notificationsHandler { rows := [], err := none }).body ≠ Json.arr l) := by
  refine ⟨fun _ _ => rfl, ?_, rfl, ?_⟩
  · intro p ps
    simp only [notificationsHandler, deriveNotifications_cons, marshalNotifications,
      List.map_map]
    rfl
  · intro l hc
    have hnull : (notificationsHandler { rows := [], err := none }).body = Json.null := rfl
    rw [hnull] at hc
    cases hc

/-- C6: when the queried relation holds the single product with identity 10, title
"Widget", description "A small widget" and category "Tools", a request served at
time `t` answers status 200 with a list of exactly one notification of type
"product", title "New Product: Widget", message "A small widget (Tools)" and
timestamp `t`. -/
theorem widget_end_to_end (db : Database) (t : Time) (p : Product)
    (hid : p.ID = 10) (htitle : p.Title = "Widget")
    (hdesc : p.Description = "A small widget") (hcat : p.Category = "Tools")
    (htab : db.lookup "products" = some [p]) :
    runSelection db t = { rows := [ProductNotification.mk 10 "Widget" "Tools" "A small widget" t],
                          err := none } ∧
    deriveNotifications (runSelection db t).rows =
      some [NotificationResponse.mk "product" "New Product: Widget" "A small widget (Tools)" t] ∧
    getNotifications db t =
      { status := 200,
        body := Json.arr [Json.obj [("type", Json.str "product"),
          ("title", Json.str "New Product: Widget"),
          ("message", Json.str "A small widget (Tools)"),
          ("timestamp", Json.time t)]] } := by
  have hsel : runSelection db t =
      { rows := [ProductNotification.mk 10 "Widget" "Tools" "A small widget" t], err := none } := by
    rw [runSelection_of_table db t [p] htab]
    simp [orderByIdDesc, project, hid, htitle, hdesc, hcat]
  have hder : deriveNotifications [ProductNotification.mk 10 "Widget" "Tools" "A small widget" t] =
      some [NotificationResponse.mk "product" "New Product: Widget" "A small widget (Tools)" t] := by
    rw [deriveNotifications_cons]
    simp only [List.map, toNotification]
    have e1 : "New Product: " ++ "Widget" = "New Product: Widget" := by decide
    have e2 : "A small widget" ++ " (" ++ "Tools" ++ ")" = "A small widget (Tools)" := by decide
    rw [e1, e2]
  refine ⟨hsel, ?_, ?_⟩
  · rw [hsel]; exact hder
  · simp only [getNotifications, hsel, notificationsHandler, hder]
    rfl

/-- Witness for C6: the widget row as the only row of the queried relation. -/
theorem widget_end_to_end_witness :
    getNotifications [("products", [sampleProduct 10 "Widget" "A small widget" "Tools"])] 1700 =
      { status := 200,
        body := Json.arr [Json.obj [("type", Json.str "product"),
          ("title", Json.str "New Product: Widget"),
          ("message", Json.str "A small widget (Tools)"),
          ("timestamp", Json.time 1700)]] } :=
  (widget_end_to_end [("products", [sampleProduct 10 "Widget" "A small widget" "Tools"])] 1700
    (sampleProduct 10 "Widget" "A small widget" "Tools") rfl rfl rfl rfl (by decide)).2.2

/-- C9: in every response to a successful query all notifications carry the same
timestamp, namely the statement time: the response is status 200 with the
encoding of the derived notifications, and any two of these have equal
timestamps. -/
theorem shared_timestamp (db : Database) (now : Time)
    (hok : (runSelection db now).err = none) :
    getNotifications db now =
      { status := 200,
        body := marshalNotifications (deriveNotifications (runSelection db now).rows) } ∧
    ∀ (i j : Nat) (n m : NotificationResponse),
      (deriveNotifications (runSelection db now).rows).elems[i]? = some n →
      (deriveNotifications (runSelection db now).rows).elems[j]? = some m →
      n.Timestamp = m.Timestamp ∧ n.Timestamp = now := by
  constructor
  · simp only [getNotifications, notificationsHandler, hok]
  · obtain ⟨rows, hrows⟩ := runSelection_ok_rows db now hok
    have key : ∀ (i : Nat) (n : NotificationResponse),
        (deriveNotifications (runSelection db now).rows).elems[i]? = some n →
        n.Timestamp = now := by
      intro i n hn
      rw [deriveNotifications_elems, hrows] at hn
      have hmem := List.getElem?_mem hn
      simp only [List.mem_map] at hmem
      obtain ⟨q, ⟨p, _, rfl⟩, rfl⟩ := hmem
      rfl
    intro i j n m hn hm
    exact ⟨(key i n hn).trans (key j m hm).symm, key i n hn⟩

/-- Witness for C9: the first and the last notification of a five-row response. -/
theorem shared_timestamp_witness :
    (runSelection [("products", sevenRows)] 42).err = none ∧
    ∀ n m : NotificationResponse,
      (deriveNotifications (runSelection [("products", sevenRows)] 42).rows).elems[0]? = some n →
      (deriveNotifications (runSelection [("products", sevenRows)] 42).rows).elems[4]? = some m →
      n.Timestamp = m.Timestamp ∧ n.Timestamp = 42 :=
  ⟨by decide, fun n m =>
    (shared_timestamp [("products", sevenRows)] 42 (by decide)).2 0 4 n m⟩

/-! ## Theorems on table naming and configuration -/

/-- C7: the selection query reads the relation "products" while start-up creates the
relation "product" under the singular naming strategy, so the two differ, and on a
database that held no relation before start-up the route answers status 500. -/
theorem query_table_differs_from_migrated (now : Time) :
    queryTable rawQuery = some "products" ∧
    migratedTable = "product" ∧
    queryTable rawQuery ≠ some migratedTable ∧
    autoMigrate [] = [("product", [])] ∧
    getNotifications (autoMigrate []) now =
      { status := 500,
        body := Json.obj [("error", Json.str "Failed to load product notifications")] } := by
  have hm : migratedTable = "product" := by decide
  have ha : autoMigrate [] = [("product", [])] := by decide
  refine ⟨rawQuery_table, hm, ?_, ha, ?_⟩
  · rw [rawQuery_table, hm]; decide
  · rw [ha]
    have hmiss : List.lookup "products" ([("product", [])] : Database) = none := by decide
    simp only [getNotifications, runSelection, execSelect, rawQuery_table, rawQuery_limit, hmiss,
      notificationsHandler]

/-- C8 (as stated) fails: with PORT set to "3000" the listen port is "3000" although
PORT is neither unset nor empty. -/
theorem port_default_not_exact :
    listenPort [("PORT", "3000")] = "3000" ∧
    List.lookup "PORT" ([("PORT", "3000")] : Env) ≠ none ∧
    List.lookup "PORT" ([("PORT", "3000")] : Env) ≠ some "" ∧
    ¬ (listenPort [("PORT", "3000")] = "3000" ↔
        (List.lookup "PORT" ([("PORT", "3000")] : Env) = none ∨
         List.lookup "PORT" ([("PORT", "3000")] : Env) = some "")) := by
  decide

/-- C8 (amended): the listen port is "3000" whenever PORT is unset or empty, is the
PORT value unchanged for every non-empty PORT value, so it is "3000" exactly when
PORT is unset, empty or itself "3000"; the server listens on ":" followed by that
port. -/
theorem listen_port_default (env : Env) :
    (env.lookup "PORT" = none ∨ env.lookup "PORT" = some "" → listenPort env = "3000") ∧
    (∀ v, env.lookup "PORT" = some v → v ≠ "" → listenPort env = v) ∧
    (listenPort env = "3000" ↔
      (env.lookup "PORT" = none ∨ env.lookup "PORT" = some "" ∨ env.lookup "PORT" = some "3000")) ∧
    listenAddr env = ":" ++ listenPort env := by
  refine ⟨?_, ?_, ?_, rfl⟩
  · rintro (h | h) <;> simp [listenPort, Getenv, h]
  · intro v h hv
    simp [listenPort, Getenv, h, hv]
  · cases h : env.lookup "PORT" with
    | none => simp [listenPort, Getenv, h]
    | some v =>
      by_cases hv : v = ""
      · simp [listenPort, Getenv, h, hv]
      · simp [listenPort, Getenv, h, hv]

/-- Witness for C8 (amended): PORT unset, and PORT set to "8080". -/
theorem listen_port_default_witness :
    listenPort [] = "3000" ∧ listenPort [("PORT", "8080")] = "8080" ∧
    listenAddr [("PORT", "8080")] = ":" ++ listenPort [("PORT", "8080")] :=
  ⟨(listen_port_default []).1 (Or.inl rfl),
   (listen_port_default [("PORT", "8080")]).2.1 "8080" (by decide) (by decide),
   (listen_port_default [("PORT", "8080")]).2.2.2⟩

end SmartCart
